import Mathlib

/-!
Verification development for the flood-risk layer-tree application.

The definitions below are shallow embeddings of the TypeScript sources:
`src/types/layers.ts`, `src/config/layers.ts`, the layer-tree component
(`LayerTree` / `LayerTreeItem`), the `ScenarioMatrix` component, `App.tsx`
and the layer-reconciliation effect of `MapViewer.tsx`.  Machine floats
(layer opacities) are modelled by rationals; JavaScript `Set<string>` by
`Finset String`; JavaScript objects reached through reference identity
(OpenLayers layer handles) carry an explicit allocation token.
-/

namespace FloodRisk

/-- `GeometryType` from `src/types/layers.ts`. -/
inductive GeometryType where
  | raster
  | polygon
  | line
  | point
  deriving DecidableEq, Repr

/-- The `type` field of `LayerInfo` (`'raster' | 'vector' | 'wms'`). -/
inductive LayerSourceType where
  | raster
  | vector
  | wms
  deriving DecidableEq, Repr

/-- `LayerInfo` from `src/types/layers.ts`.  Optional TypeScript fields are
`Option`s; `opacity` (a JS number in `[0,1]`) is modelled as a rational. -/
structure LayerInfo where
  id : String
  name : String
  type : LayerSourceType
  geometryType : Option GeometryType
  visible : Bool
  opacity : ℚ
  geoserverName : Option String
  workspace : Option String
  style : Option String
  legendUrl : Option String
  zIndex : Option Int
  deriving DecidableEq, Repr

/-- `LayerGroup | LayerInfo` from `src/types/layers.ts`.  A group carries
`id`, `name`, `expanded`, `visible` and `children`.  The extra
`runtimeOpacity` field models the JavaScript runtime property `opacity`
that object spread (`{ ...node, opacity }` in `handleOpacityChange`) can
attach to a plain group object even though the TypeScript interface
`LayerGroup` does not declare it; it is `none` in every catalog literal. -/
inductive LayerNode where
  | info (i : LayerInfo)
  | group (id name : String) (expanded visible : Bool) (runtimeOpacity : Option ℚ)
      (children : List LayerNode)
  deriving Repr

/-- The shared `id` field of the `LayerGroup | LayerInfo` union. -/
def LayerNode.id : LayerNode → String
  | .info i => i.id
  | .group gid _ _ _ _ _ => gid

/-- The shared `visible` field of the union. -/
def LayerNode.visible : LayerNode → Bool
  | .info i => i.visible
  | .group _ _ _ v _ _ => v

/-- `isLayerGroup` from `src/types/layers.ts` (`'children' in node`). -/
def isLayerGroup : LayerNode → Bool
  | .info _ => false
  | .group _ _ _ _ _ _ => true

/-- JavaScript `String.prototype.toLowerCase` restricted to the ASCII
identifiers used by the catalog: lowercase every character. -/
def toLowerStr (s : String) : String :=
  String.mk (s.data.map Char.toLower)

/-- `buildLayerName` from `src/config/layers.ts`:
`` `t3_${returnPeriod}yrs_${scenario.toLowerCase()}_${maintenance.toLowerCase()}_${parameter.toLowerCase()}` ``. -/
def buildLayerName (scenario maintenance returnPeriod parameter : String) : String :=
  "t3_" ++ returnPeriod ++ "yrs_" ++ toLowerStr scenario ++ "_" ++ toLowerStr maintenance
    ++ "_" ++ toLowerStr parameter

/-- `buildLayerId` from the `ScenarioMatrix` component:
`` `t3_${returnPeriod}yrs_${climate.toLowerCase()}_${maintenance.toLowerCase()}_${parameter.toLowerCase()}` ``. -/
def buildLayerId (climate maintenance returnPeriod parameter : String) : String :=
  "t3_" ++ returnPeriod ++ "yrs_" ++ toLowerStr climate ++ "_" ++ toLowerStr maintenance
    ++ "_" ++ toLowerStr parameter

/-- `GEOSERVER_CONFIG.workspaces` from `src/config/layers.ts`. -/
structure GeoServerWorkspaces where
  results : String
  dem : String
  deriving Repr

/-- `GEOSERVER_CONFIG` from `src/config/layers.ts`. -/
structure GeoServerConfig where
  baseUrl : String
  workspaces : GeoServerWorkspaces
  wmsVersion : String
  deriving Repr

def GEOSERVER_CONFIG : GeoServerConfig :=
  { baseUrl := "/geoserver"
    workspaces := { results := "results", dem := "DEM" }
    wmsVersion := "1.1.1" }

/-- `createRasterLayer` from `src/config/layers.ts`.  The TypeScript
defaults (`visible = false`, `opacity = 0.8`, `workspace = results`,
`geometryType = 'raster'`) are passed explicitly at every call site. -/
def createRasterLayer (name geoserverName : String) (visible : Bool) (opacity : ℚ)
    (workspace : String) (geometryType : GeometryType) : LayerInfo :=
  { id := geoserverName
    name := name
    type := LayerSourceType.wms
    geometryType := some geometryType
    visible := visible
    opacity := opacity
    geoserverName := some geoserverName
    workspace := some workspace
    style := none
    legendUrl := some (GEOSERVER_CONFIG.baseUrl
      ++ "/wms?REQUEST=GetLegendGraphic&VERSION=1.1.1&FORMAT=image/png&LAYER="
      ++ workspace ++ ":" ++ geoserverName)
    zIndex := none }

/-- `createVectorLayer` from `src/config/layers.ts`; defaults passed
explicitly at call sites. -/
def createVectorLayer (name geoserverName : String) (visible : Bool) (opacity : ℚ)
    (workspace : String) (geometryType : GeometryType) : LayerInfo :=
  { id := geoserverName
    name := name
    type := LayerSourceType.wms
    geometryType := some geometryType
    visible := visible
    opacity := opacity
    geoserverName := some geoserverName
    workspace := some workspace
    style := none
    legendUrl := none
    zIndex := none }

/-- The `paramLabels` record inside `generateFloodScenarioLayers`
(`src/config/layers.ts`), totalised with `""` for keys outside the record
(the source only ever looks up the four parameter keys). -/
def paramLabels (param : String) : String :=
  if param = "maxdepth" then "Depth"
  else if param = "maxvelocity" then "Velocity"
  else if param = "duration" then "Duration"
  else if param = "vh" then "V × h"
  else ""

/-- The `parameters` list local to `generateFloodScenarioLayers`. -/
def scenarioParameters : List String :=
  ["maxdepth", "maxvelocity", "duration", "vh"]

/-- The `returnPeriods` list local to `generateFloodScenarioLayers`. -/
def scenarioReturnPeriods : List String :=
  ["2.3", "5", "10", "25", "50", "100", "500"]

/-- `generateFloodScenarioLayers` from `src/config/layers.ts`. -/
def generateFloodScenarioLayers (scenario maintenance : String) : List LayerNode :=
  scenarioParameters.map (fun param =>
    LayerNode.group (scenario ++ "_" ++ maintenance ++ "_" ++ param) (paramLabels param)
      false false none
      (scenarioReturnPeriods.map (fun rp =>
        LayerNode.info (createRasterLayer (rp ++ " Years")
          (buildLayerName scenario maintenance rp param) false (0.8 : ℚ)
          GEOSERVER_CONFIG.workspaces.results GeometryType.raster))))

/-- `layerTree` from `src/config/layers.ts`: the static catalog tree. -/
def layerTree : LayerNode :=
  LayerNode.group "root" "Layers" true true none
    [ LayerNode.group "survey" "Survey" false false none
        [ LayerNode.info (createVectorLayer "DGPS Survey Points" "dgps_11apr_09aug2025"
            false 1 GEOSERVER_CONFIG.workspaces.results GeometryType.point) ],
      LayerNode.group "structures" "Structures" false false none
        [ LayerNode.info (createVectorLayer "Structures" "structures"
            false 1 GEOSERVER_CONFIG.workspaces.results GeometryType.polygon),
          LayerNode.info (createVectorLayer "Canal Network" "canal_network"
            false 1 GEOSERVER_CONFIG.workspaces.results GeometryType.line),
          LayerNode.info (createVectorLayer "Drains" "drains"
            false 1 GEOSERVER_CONFIG.workspaces.results GeometryType.line) ],
      LayerNode.group "supporting" "Supporting Layers" false true none
        [ LayerNode.info (createVectorLayer "Area of Interest" "aoi"
            false (0.6 : ℚ) GEOSERVER_CONFIG.workspaces.results GeometryType.polygon),
          LayerNode.info (createVectorLayer "Sindh Province" "sindh_province"
            false (0.4 : ℚ) GEOSERVER_CONFIG.workspaces.results GeometryType.polygon),
          LayerNode.info (createVectorLayer "Sub-Catchments" "subcatchments"
            false (0.5 : ℚ) GEOSERVER_CONFIG.workspaces.results GeometryType.polygon) ],
      LayerNode.group "present_climate" "Present Climate" true true none
        [ LayerNode.group "present_breaches" "Maintenance - Breaches" false false none
            (generateFloodScenarioLayers "Present" "Breaches"),
          LayerNode.group "present_redcapacity" "Maintenance - Reduced Capacity" false false none
            (generateFloodScenarioLayers "Present" "RedCapacity"),
          LayerNode.group "present_perfect" "Maintenance - Perfect" false false none
            (generateFloodScenarioLayers "Present" "Perfect") ],
      LayerNode.group "future_climate" "Future Climate" false false none
        [ LayerNode.group "future_breaches" "Maintenance - Breaches" false false none
            (generateFloodScenarioLayers "Future" "Breaches"),
          LayerNode.group "future_redcapacity" "Maintenance - Reduced Capacity" false false none
            (generateFloodScenarioLayers "Future" "RedCapacity"),
          LayerNode.group "future_perfect" "Maintenance - Perfect" false false none
            (generateFloodScenarioLayers "Future" "Perfect") ],
      LayerNode.group "flood2022" "Flood 2022 (Actual Event)" false false none
        [ LayerNode.info (createRasterLayer "Max Depth" "t3_flood2022_maxdepth"
            false (0.8 : ℚ) GEOSERVER_CONFIG.workspaces.results GeometryType.raster),
          LayerNode.info (createRasterLayer "Max Velocity" "t3_flood2022_maxvelocity"
            false (0.8 : ℚ) GEOSERVER_CONFIG.workspaces.results GeometryType.raster),
          LayerNode.info (createRasterLayer "Duration" "t3_flood2022_duration"
            false (0.8 : ℚ) GEOSERVER_CONFIG.workspaces.results GeometryType.raster),
          LayerNode.info (createRasterLayer "V × h" "t3_flood2022_vh"
            false (0.8 : ℚ) GEOSERVER_CONFIG.workspaces.results GeometryType.raster) ],
      LayerNode.group "hdtm" "HDTM" false false none
        [ LayerNode.info (createRasterLayer "HDTM Tile 1 (e68n26)" "1_e68n26_HDTM1mV2"
            false 1 GEOSERVER_CONFIG.workspaces.dem GeometryType.raster),
          LayerNode.info (createRasterLayer "HDTM Tile 2 (e67n26)" "2_e67n26_HDTM1mV3"
            false 1 GEOSERVER_CONFIG.workspaces.dem GeometryType.raster),
          LayerNode.info (createRasterLayer "HDTM Tile 3 (e68n27)" "3_e68n27_HDTM1mV2"
            false 1 GEOSERVER_CONFIG.workspaces.dem GeometryType.raster),
          LayerNode.info (createRasterLayer "HDTM Tile 4 (e67n27)" "4_e67n27_HDTM1mV2"
            false 1 GEOSERVER_CONFIG.workspaces.dem GeometryType.raster),
          LayerNode.info (createRasterLayer "HDTM Tile 5 (e69n28)" "5_e69n28_HDTM1m"
            false 1 GEOSERVER_CONFIG.workspaces.dem GeometryType.raster),
          LayerNode.info (createRasterLayer "HDTM Tile 6 (e68n28)" "6_e68n28_HDTM1m"
            false 1 GEOSERVER_CONFIG.workspaces.dem GeometryType.raster),
          LayerNode.info (createRasterLayer "HDTM Tile 7 (e67n28)" "7_e67n28_HDTM1m"
            false 1 GEOSERVER_CONFIG.workspaces.dem GeometryType.raster),
          LayerNode.info (createRasterLayer "HDTM Tile 8 (e68n29)" "8_e68n29_HDTM1m"
            false 1 GEOSERVER_CONFIG.workspaces.dem GeometryType.raster),
          LayerNode.info (createRasterLayer "HDTM Tile 9 (e67n29)" "9_e67n29_HDTM1m"
            false 1 GEOSERVER_CONFIG.workspaces.dem GeometryType.raster) ] ]

/-- An option entry of `returnPeriods` / `maintenanceLevels` /
`climateScenarios` in `src/types/layers.ts`. -/
structure ValueLabel where
  value : String
  label : String
  deriving DecidableEq, Repr

/-- `returnPeriods` from `src/types/layers.ts`. -/
def returnPeriods : List ValueLabel :=
  [ { value := "2.3", label := "2.3 Years" },
    { value := "5", label := "5 Years" },
    { value := "10", label := "10 Years" },
    { value := "25", label := "25 Years" },
    { value := "50", label := "50 Years" },
    { value := "100", label := "100 Years" },
    { value := "500", label := "500 Years" } ]

/-- `maintenanceLevels` from `src/types/layers.ts`. -/
def maintenanceLevels : List ValueLabel :=
  [ { value := "breaches", label := "Flood 2022 (Breaches)" },
    { value := "redcapacity", label := "Reduced Capacity" },
    { value := "perfect", label := "Perfect" } ]

/-- `CompareMode` of the `ScenarioMatrix` component (`'single' | 'all'`). -/
inductive CompareMode where
  | single
  | all
  deriving DecidableEq, Repr

/-- `isCellActive` from `ScenarioMatrix`: is the layer id of one
(return period, maintenance) cell in the visible-layer set. -/
def isCellActive (selectedClimate selectedParameter : String) (visibleLayers : Finset String)
    (returnPeriod maintenance : String) : Bool :=
  decide (buildLayerId selectedClimate maintenance returnPeriod selectedParameter ∈ visibleLayers)

/-- `toggleCell` from `ScenarioMatrix`, as the ordered list of
`onLayerToggle(layerId, visible)` calls it performs. -/
def toggleCell (compareMode : CompareMode) (selectedMaintenance : List String)
    (selectedClimate selectedParameter : String) (visibleLayers : Finset String)
    (returnPeriod maintenance : String) : List (String × Bool) :=
  let layerId := buildLayerId selectedClimate maintenance returnPeriod selectedParameter
  let isActive := decide (layerId ∈ visibleLayers)
  let exclusions :=
    if compareMode = CompareMode.single ∧ selectedMaintenance.length = 1 then
      returnPeriods.filterMap (fun rp =>
        let otherId := buildLayerId selectedClimate maintenance rp.value selectedParameter
        if otherId ≠ layerId ∧ otherId ∈ visibleLayers then some (otherId, false) else none)
    else []
  exclusions ++ [(layerId, !isActive)]

/-- `toggleRow` from `ScenarioMatrix`, as the ordered list of
`onLayerToggle` calls. -/
def toggleRow (selectedClimate selectedParameter : String) (selectedMaintenance : List String)
    (visibleLayers : Finset String) (returnPeriod : String) : List (String × Bool) :=
  let anyActive := selectedMaintenance.any (fun m =>
    isCellActive selectedClimate selectedParameter visibleLayers returnPeriod m)
  selectedMaintenance.map (fun maintenance =>
    (buildLayerId selectedClimate maintenance returnPeriod selectedParameter, !anyActive))

/-- `toggleColumn` from `ScenarioMatrix`, as the ordered list of
`onLayerToggle` calls. -/
def toggleColumn (selectedClimate selectedParameter : String) (visibleLayers : Finset String)
    (maintenance : String) : List (String × Bool) :=
  let anyActive := returnPeriods.any (fun rp =>
    isCellActive selectedClimate selectedParameter visibleLayers rp.value maintenance)
  returnPeriods.map (fun rp =>
    (buildLayerId selectedClimate maintenance rp.value selectedParameter, !anyActive))

/-- `handleLayerVisibilityChange` from `src/App.tsx`: copy the previous
visible-id set and add or delete the single id. -/
def handleLayerVisibilityChange (prev : Finset String) (id : String) (visible : Bool) :
    Finset String :=
  if visible then insert id prev else prev.erase id

/-- Feeding a list of `(id, visible)` notifications (as emitted by the
matrix or the layer tree) one by one into `handleLayerVisibilityChange`. -/
def applyEmissions (s : Finset String) (emissions : List (String × Bool)) : Finset String :=
  emissions.foldl (fun acc e => handleLayerVisibilityChange acc e.1 e.2) s

/-! ### Tree mutation engine (`LayerTree` component) -/

mutual

/-- The per-child transform inside `updateNodeInTree`'s `updateChildren`
(`src` maps each child: matching id gets the updater, other groups are
rebuilt with transformed children, other leaves pass through). -/
def updateChildNode (nodeId : String) (updater : LayerNode → LayerNode) :
    LayerNode → LayerNode
  | .info i => if i.id = nodeId then updater (.info i) else .info i
  | .group gid gname ge gv gop cs =>
      if gid = nodeId then updater (.group gid gname ge gv gop cs)
      else .group gid gname ge gv gop (updateChildren nodeId updater cs)

/-- The inner `updateChildren` of `updateNodeInTree`
(`children.map(child => ...)`). -/
def updateChildren (nodeId : String) (updater : LayerNode → LayerNode) :
    List LayerNode → List LayerNode
  | [] => []
  | child :: rest => updateChildNode nodeId updater child :: updateChildren nodeId updater rest

end

/-- `updateNodeInTree` from the `LayerTree` component: apply the updater
only to the node with matching id.  The source takes a `LayerGroup` root
(checking `tree.id` first, then mapping the children); the leaf case here
only totalises the function — the source's root is always a group. -/
def updateNodeInTree (tree : LayerNode) (nodeId : String)
    (updater : LayerNode → LayerNode) : LayerNode :=
  match tree with
  | .info i => if i.id = nodeId then updater (.info i) else .info i
  | .group gid gname ge gv gop cs =>
      if gid = nodeId then updater (.group gid gname ge gv gop cs)
      else .group gid gname ge gv gop (updateChildren nodeId updater cs)

mutual

/-- `collectLayerIds` from the `LayerTree` component: recursively collect
all (leaf) layer ids in a subtree, in tree order. -/
def collectLayerIds : LayerNode → List String
  | .info i => [i.id]
  | .group _ _ _ _ _ cs => collectLayerIdsList cs

/-- The `forEach` accumulation inside `collectLayerIds`. -/
def collectLayerIdsList : List LayerNode → List String
  | [] => []
  | c :: cs => collectLayerIds c ++ collectLayerIdsList cs

end

mutual

/-- The `findNode` closure inside `handleToggleVisibility`: depth-first
search for the node with the given id. -/
def findNode : LayerNode → String → Option LayerNode
  | .info i, targetId => if i.id = targetId then some (.info i) else none
  | .group gid gname ge gv gop cs, targetId =>
      if gid = targetId then some (.group gid gname ge gv gop cs)
      else findNodeList cs targetId

/-- The `for (const child of node.children)` loop inside `findNode`. -/
def findNodeList : List LayerNode → String → Option LayerNode
  | [], _ => none
  | c :: cs, targetId =>
    match findNode c targetId with
    | some found => some found
    | none => findNodeList cs targetId

end

mutual

/-- The `syncVisibility` closure of the external-set sync `useEffect` in
`LayerTree`: leaves get `visible := externalVisibleLayerIds.has(id)`,
groups are rebuilt with synced children (their own `visible` flag is
copied unchanged by the object spread). -/
def syncVisibility (externalVisibleLayerIds : Finset String) : LayerNode → LayerNode
  | .group gid gname ge gv gop cs =>
      .group gid gname ge gv gop (syncVisibilityList externalVisibleLayerIds cs)
  | .info i => .info { i with visible := decide (i.id ∈ externalVisibleLayerIds) }

/-- `node.children.map(syncVisibility)`. -/
def syncVisibilityList (externalVisibleLayerIds : Finset String) :
    List LayerNode → List LayerNode
  | [] => []
  | c :: cs =>
      syncVisibility externalVisibleLayerIds c :: syncVisibilityList externalVisibleLayerIds cs

end

/-- The `idsChanged` computation of the sync `useEffect`:
`currentIds.length !== prevIds.length || currentIds.some((id, i) => id !== prevIds[i])`. -/
def idsChangedB (currentIds prevIds : List String) : Bool :=
  (currentIds.length != prevIds.length) ||
    (List.range currentIds.length).any (fun i => currentIds.get? i != prevIds.get? i)

/-- The whole external-set sync `useEffect` of `LayerTree`, as a function
of the new external set, the stored `prevVisibleIdsRef` contents and the
current tree, returning the new ref contents and the new tree.
`Array.from(set).sort()` is the sorted list of the set's ids. -/
def visibilitySyncEffect (externalVisibleLayerIds : Finset String) (prevIds : List String)
    (tree : LayerNode) : List String × LayerNode :=
  let currentIds := externalVisibleLayerIds.sort (· ≤ ·)
  if idsChangedB currentIds prevIds then
    (currentIds, syncVisibility externalVisibleLayerIds tree)
  else (prevIds, tree)

mutual

/-- The `checkChildVisible` closure inside `handleToggleVisibility`'s
`updateVisibility`: visibility probe of a subtree with the toggled id
overridden to its new value. -/
def checkChildVisible (id : String) (visible : Bool) : LayerNode → Bool
  | .info i => if i.id = id then visible else i.visible
  | .group gid _ _ _ _ cs => if gid = id then visible else checkChildVisibleList id visible cs

/-- `n.children.some(checkChildVisible)`. -/
def checkChildVisibleList (id : String) (visible : Bool) : List LayerNode → Bool
  | [] => false
  | c :: cs => checkChildVisible id visible c || checkChildVisibleList id visible cs

end

/-- The `hasVisibleChildren` computation inside `updateVisibility`:
`node.children.some(child => ...)`. -/
def hasVisibleChildrenList (id : String) (visible : Bool) : List LayerNode → Bool
  | [] => false
  | child :: rest =>
    (if child.id = id then visible
     else
       match child with
       | .group _ _ _ _ _ _ => checkChildVisible id visible child
       | .info i => i.visible) || hasVisibleChildrenList id visible rest

mutual

/-- The `updateVisibility` closure passed to `setTree` by
`handleToggleVisibility`.  On the node whose id matches, the object
spread `{ ...node, visible }` overwrites the `visible` flag of either
variant and stops; other groups get `visible := hasVisibleChildren` and
mapped children; other leaves are returned unchanged. -/
def updateVisibility (id : String) (visible : Bool) : LayerNode → LayerNode
  | .info i => if i.id = id then .info { i with visible := visible } else .info i
  | .group gid gname ge _gv gop cs =>
      if gid = id then .group gid gname ge visible gop cs
      else
        .group gid gname ge (hasVisibleChildrenList id visible cs) gop
          (updateVisibilityList id visible cs)

/-- `node.children.map(updateVisibility)`. -/
def updateVisibilityList (id : String) (visible : Bool) : List LayerNode → List LayerNode
  | [] => []
  | c :: cs => updateVisibility id visible c :: updateVisibilityList id visible cs

end

/-- One observable step of the `handleToggleVisibility` callback: either a
`onLayerVisibilityChange(id, visible)` notification to the external set's
owner, or the `setTree` local state update. -/
inductive ToggleEvent where
  | notifyVisibility (id : String) (visible : Bool)
  | applyTreeUpdate
  deriving DecidableEq, Repr

/-- `handleToggleVisibility` from the `LayerTree` component, as the
ordered trace of its observable steps together with the tree it installs.
When the id is not found the callback returns early: no events, tree
untouched. -/
def handleToggleVisibility (tree : LayerNode) (id : String) (visible : Bool) :
    List ToggleEvent × LayerNode :=
  match findNode tree id with
  | none => ([], tree)
  | some node =>
    let notifications :=
      if isLayerGroup node then
        (collectLayerIds node).map (fun layerId => ToggleEvent.notifyVisibility layerId visible)
      else [ToggleEvent.notifyVisibility id visible]
    (notifications ++ [ToggleEvent.applyTreeUpdate], updateVisibility id visible tree)

/-- `handleToggleExpand` from the `LayerTree` component. -/
def handleToggleExpand (tree : LayerNode) (id : String) (expanded : Bool) : LayerNode :=
  updateNodeInTree tree id (fun node =>
    match node with
    | .info i => .info i
    | .group gid gname _ gv gop cs => .group gid gname expanded gv gop cs)

/-- The updater `node => ({ ...node, opacity })` of `handleOpacityChange`.
On a leaf the spread overwrites the declared `opacity` field; on a group
object it attaches a runtime `opacity` property (see `LayerNode`). -/
def opacitySpread (opacity : ℚ) : LayerNode → LayerNode
  | .info i => .info { i with opacity := opacity }
  | .group gid gname ge gv _ cs => .group gid gname ge gv (some opacity) cs

/-- `handleOpacityChange` from the `LayerTree` component: notify the
parent first (the `(id, opacity)` pair passed to `onLayerOpacityChange`),
then update the local tree. -/
def handleOpacityChange (tree : LayerNode) (id : String) (opacity : ℚ) :
    (String × ℚ) × LayerNode :=
  ((id, opacity), updateNodeInTree tree id (opacitySpread opacity))

/-! ### Specification-side observations of a tree -/

mutual

/-- All leaf records of a subtree, in tree order. -/
def leavesOf : LayerNode → List LayerInfo
  | .info i => [i]
  | .group _ _ _ _ _ cs => leavesOfList cs

def leavesOfList : List LayerNode → List LayerInfo
  | [] => []
  | c :: cs => leavesOf c ++ leavesOfList cs

end

mutual

/-- The `visible` flags of all group nodes of a subtree, in preorder. -/
def groupFlagsOf : LayerNode → List Bool
  | .info _ => []
  | .group _ _ _ v _ cs => v :: groupFlagsOfList cs

def groupFlagsOfList : List LayerNode → List Bool
  | [] => []
  | c :: cs => groupFlagsOf c ++ groupFlagsOfList cs

end

mutual

/-- All node ids of a subtree (groups and leaves share one namespace). -/
def allIds : LayerNode → List String
  | .info i => [i.id]
  | .group gid _ _ _ _ cs => gid :: allIdsList cs

def allIdsList : List LayerNode → List String
  | [] => []
  | c :: cs => allIds c ++ allIdsList cs

end

mutual

/-- Is at least one leaf of the subtree visible. -/
def anyLeafVisible : LayerNode → Bool
  | .info i => i.visible
  | .group _ _ _ _ _ cs => anyLeafVisibleList cs

def anyLeafVisibleList : List LayerNode → Bool
  | [] => false
  | c :: cs => anyLeafVisible c || anyLeafVisibleList cs

end

mutual

/-- The derived-visibility invariant of the specification: every group's
`visible` flag equals the logical OR of the `visible` flags of the leaves
of its subtree. -/
def derivedOk : LayerNode → Bool
  | .info _ => true
  | .group _ _ _ v _ cs => (v == anyLeafVisibleList cs) && derivedOkList cs

def derivedOkList : List LayerNode → Bool
  | [] => true
  | c :: cs => derivedOk c && derivedOkList cs

end

/-- The bare shape of a tree: which positions are leaves and which are
groups, ignoring all data fields. -/
inductive NodeShape where
  | leafS
  | groupS (children : List NodeShape)
  deriving Repr

mutual

/-- The shape of a node. -/
def shapeOf : LayerNode → NodeShape
  | .info _ => NodeShape.leafS
  | .group _ _ _ _ _ cs => NodeShape.groupS (shapeOfList cs)

def shapeOfList : List LayerNode → List NodeShape
  | [] => []
  | c :: cs => shapeOf c :: shapeOfList cs

end

/-! ### Render adapter (`MapViewer` layer-reconciliation effect) -/

/-- The `Z_INDEX_PRIORITY` record (duplicated in `src/types/layers.ts` and
`MapViewer.tsx`). -/
def Z_INDEX_PRIORITY : GeometryType → Int
  | .raster => 10
  | .polygon => 50
  | .line => 100
  | .point => 150

/-- `getZIndexForGeometryType` from `MapViewer.tsx` (default 50 when the
geometry type is missing; the `|| 50` fallback of the source is dead for a
total record). -/
def getZIndexForGeometryType : Option GeometryType → Int
  | none => 50
  | some g => Z_INDEX_PRIORITY g

/-- An OpenLayers `TileLayer<TileWMS>` handle as the reconciliation effect
observes it.  `token` models JavaScript object identity: a freshly
constructed layer gets a fresh token, in-place mutation (`setOpacity`,
`setZIndex`) keeps the token. -/
structure TileLayerHandle where
  token : Nat
  url : String
  layersParam : String
  opacity : ℚ
  zIndex : Int
  visible : Bool
  deriving DecidableEq, Repr

/-- First-match lookup in an association list (JS `Map.get` /
record indexing). -/
def lookupAssoc {α : Type} : List (String × α) → String → Option α
  | [], _ => none
  | p :: rest, k => if p.1 = k then some p.2 else lookupAssoc rest k

/-- JS `Map.set` / record assignment: replace the value at an existing
key in place (keeping its position), otherwise append the new entry. -/
def setAssoc {α : Type} : List (String × α) → String → α → List (String × α)
  | [], k, v => [(k, v)]
  | p :: rest, k, v => if p.1 = k then (k, v) :: rest else p :: setAssoc rest k v

/-- The mutable refs of `MapViewer` that the reconciliation effect reads
and writes: `layerRefs` (id → live layer handle), `layerOpacitiesRef`
(id → last applied opacity) and an allocation counter for fresh handles. -/
structure MapLayersState where
  layerRefs : List (String × TileLayerHandle)
  layerOpacities : List (String × ℚ)
  nextToken : Nat
  deriving DecidableEq, Repr

/-- The removal loop of the reconciliation effect: drop every handle whose
id is not in `currentLayerIds` (and delete its `layerOpacitiesRef` entry). -/
def removePhase (currentLayerIds : List String) (st : MapLayersState) : MapLayersState :=
  { st with
    layerRefs := st.layerRefs.filter (fun p => decide (p.1 ∈ currentLayerIds))
    layerOpacities := st.layerOpacities.filter (fun p =>
      decide (p.1 ∈ currentLayerIds) || !(decide (p.1 ∈ st.layerRefs.map Prod.fst))) }

/-- `${layerInfo.workspace}` in a JS template literal (an absent field
renders as the string `"undefined"`). -/
def optStr : Option String → String
  | none => "undefined"
  | some s => s

/-- One iteration of the `visibleLayers.forEach` loop of the
reconciliation effect: create a fresh WMS layer for an id without a
handle, otherwise mutate the existing handle in place (opacity only when
it is missing from `layerOpacitiesRef` or moved by more than `0.01`,
z-index unconditionally). -/
def addOrUpdateOne (st : MapLayersState) (layerInfo : LayerInfo) : MapLayersState :=
  let zIndex := getZIndexForGeometryType layerInfo.geometryType
  match lookupAssoc st.layerRefs layerInfo.id with
  | none =>
    let wmsLayer : TileLayerHandle :=
      { token := st.nextToken
        url := GEOSERVER_CONFIG.baseUrl ++ "/" ++ optStr layerInfo.workspace ++ "/wms"
        layersParam := optStr layerInfo.workspace ++ ":" ++ optStr layerInfo.geoserverName
        opacity := layerInfo.opacity
        zIndex := zIndex
        visible := true }
    { layerRefs := setAssoc st.layerRefs layerInfo.id wmsLayer
      layerOpacities := setAssoc st.layerOpacities layerInfo.id layerInfo.opacity
      nextToken := st.nextToken + 1 }
  | some existingLayer =>
    let currentOpacity := layerInfo.opacity
    let updateOpacity :=
      match lookupAssoc st.layerOpacities layerInfo.id with
      | none => true
      | some previousOpacity => decide (|previousOpacity - currentOpacity| > (0.01 : ℚ))
    let l1 := if updateOpacity then { existingLayer with opacity := currentOpacity }
              else existingLayer
    { layerRefs := setAssoc st.layerRefs layerInfo.id { l1 with zIndex := zIndex }
      layerOpacities :=
        if updateOpacity then setAssoc st.layerOpacities layerInfo.id currentOpacity
        else st.layerOpacities
      nextToken := st.nextToken }

/-- The whole layer-reconciliation `useEffect` of `MapViewer.tsx`: remove
stale handles, then add or mutate a handle for each visible leaf. -/
def reconcile (visibleLayers : List LayerInfo) (st : MapLayersState) : MapLayersState :=
  visibleLayers.foldl addOrUpdateOne (removePhase (visibleLayers.map LayerInfo.id) st)

mutual

/-- Spec-side check for the opacity-on-groups policy: no group node of
the tree carries a (runtime) opacity value. -/
def groupsCarryNoOpacity : LayerNode → Bool
  | .info _ => true
  | .group _ _ _ _ gop cs => gop.isNone && groupsCarryNoOpacityList cs

/-- List version of `groupsCarryNoOpacity`. -/
def groupsCarryNoOpacityList : List LayerNode → Bool
  | [] => true
  | c :: cs => groupsCarryNoOpacity c && groupsCarryNoOpacityList cs

end

/-! ### Concrete sample data used by witnesses and counterexamples -/

/-- A small sample tree: a root with one group `g` holding leaves `a`, `b`. -/
def sampleLeafA : LayerInfo :=
  createVectorLayer "Leaf A" "a" false 1 GEOSERVER_CONFIG.workspaces.results GeometryType.line

def sampleLeafB : LayerInfo :=
  createVectorLayer "Leaf B" "b" true (0.5 : ℚ) GEOSERVER_CONFIG.workspaces.results
    GeometryType.polygon

def sampleGroup : LayerNode :=
  LayerNode.group "g" "Group" true false none [LayerNode.info sampleLeafA, LayerNode.info sampleLeafB]

def sampleTree : LayerNode :=
  LayerNode.group "root" "Layers" true true none [sampleGroup]

/-- Visible leaves used to exercise the render adapter. -/
def sampleVisibleX : LayerInfo :=
  createRasterLayer "X" "x" true (0.8 : ℚ) GEOSERVER_CONFIG.workspaces.results GeometryType.raster

def sampleVisibleY : LayerInfo :=
  createVectorLayer "Y" "y" true 1 GEOSERVER_CONFIG.workspaces.results GeometryType.point

def mapState0 : MapLayersState := { layerRefs := [], layerOpacities := [], nextToken := 0 }

/-- The state after a first reconciliation pass showing only `x`. -/
def mapState1 : MapLayersState := reconcile [sampleVisibleX] mapState0

/-- The handle created for `x` by the first pass. -/
def sampleHandleX : TileLayerHandle :=
  { token := 0
    url := "/geoserver/results/wms"
    layersParam := "results:x"
    opacity := (0.8 : ℚ)
    zIndex := 10
    visible := true }

/-! ### Helper lemmas -/

mutual

theorem leavesOf_sync (s : Finset String) :
    (t : LayerNode) → leavesOf (syncVisibility s t) =
      (leavesOf t).map (fun i => { i with visible := decide (i.id ∈ s) })
  | .info i => by simp [syncVisibility, leavesOf]
  | .group gid gname ge gv gop cs => by
      simp [syncVisibility, leavesOf, leavesOfList_sync s cs]

theorem leavesOfList_sync (s : Finset String) :
    (ts : List LayerNode) → leavesOfList (syncVisibilityList s ts) =
      (leavesOfList ts).map (fun i => { i with visible := decide (i.id ∈ s) })
  | [] => rfl
  | c :: cs => by
      simp [syncVisibilityList, leavesOfList, leavesOf_sync s c, leavesOfList_sync s cs]

end

mutual

theorem groupFlagsOf_sync (s : Finset String) :
    (t : LayerNode) → groupFlagsOf (syncVisibility s t) = groupFlagsOf t
  | .info i => rfl
  | .group gid gname ge gv gop cs => by
      simp [syncVisibility, groupFlagsOf, groupFlagsOfList_sync s cs]

theorem groupFlagsOfList_sync (s : Finset String) :
    (ts : List LayerNode) → groupFlagsOfList (syncVisibilityList s ts) = groupFlagsOfList ts
  | [] => rfl
  | c :: cs => by
      simp [syncVisibilityList, groupFlagsOfList, groupFlagsOf_sync s c,
        groupFlagsOfList_sync s cs]

end

mutual

theorem collectLayerIds_eq_leaves :
    (t : LayerNode) → collectLayerIds t = (leavesOf t).map LayerInfo.id
  | .info i => rfl
  | .group gid gname ge gv gop cs => by
      simp [collectLayerIds, leavesOf, collectLayerIdsList_eq_leaves cs]

theorem collectLayerIdsList_eq_leaves :
    (ts : List LayerNode) → collectLayerIdsList ts = (leavesOfList ts).map LayerInfo.id
  | [] => rfl
  | c :: cs => by
      simp [collectLayerIdsList, leavesOfList, collectLayerIds_eq_leaves c,
        collectLayerIdsList_eq_leaves cs]

end

mutual

theorem findNode_eq_none (id : String) :
    (t : LayerNode) → id ∉ allIds t → findNode t id = none
  | .info i, h => by
      simp [allIds] at h
      simp [findNode, Ne.symm h]
  | .group gid gname ge gv gop cs, h => by
      simp [allIds] at h
      simp [findNode, Ne.symm h.1, findNodeList_eq_none id cs h.2]

theorem findNodeList_eq_none (id : String) :
    (ts : List LayerNode) → id ∉ allIdsList ts → findNodeList ts id = none
  | [], _ => rfl
  | c :: cs, h => by
      simp [allIdsList] at h
      simp [findNodeList, findNode_eq_none id c h.1, findNodeList_eq_none id cs h.2]

end

mutual

theorem updateChildNode_not_mem (id : String) (u : LayerNode → LayerNode) :
    (t : LayerNode) → id ∉ allIds t → updateChildNode id u t = t
  | .info i, h => by
      simp [allIds] at h
      simp [updateChildNode, Ne.symm h]
  | .group gid gname ge gv gop cs, h => by
      simp [allIds] at h
      simp [updateChildNode, Ne.symm h.1, updateChildren_not_mem id u cs h.2]

theorem updateChildren_not_mem (id : String) (u : LayerNode → LayerNode) :
    (ts : List LayerNode) → id ∉ allIdsList ts → updateChildren id u ts = ts
  | [], _ => rfl
  | c :: cs, h => by
      simp [allIdsList] at h
      simp [updateChildren, updateChildNode_not_mem id u c h.1,
        updateChildren_not_mem id u cs h.2]

end

theorem updateNodeInTree_not_mem (id : String) (u : LayerNode → LayerNode)
    (t : LayerNode) (h : id ∉ allIds t) : updateNodeInTree t id u = t := by
  cases t with
  | info i =>
      simp [allIds] at h
      simp [updateNodeInTree, Ne.symm h]
  | group gid gname ge gv gop cs =>
      simp [allIds] at h
      simp [updateNodeInTree, Ne.symm h.1, updateChildren_not_mem id u cs h.2]

mutual

theorem shapeOf_updateChildNode (id : String) (u : LayerNode → LayerNode)
    (hu : ∀ n, shapeOf (u n) = shapeOf n) :
    (t : LayerNode) → shapeOf (updateChildNode id u t) = shapeOf t
  | .info i => by
      by_cases hid : i.id = id <;> simp [updateChildNode, hid, hu]
  | .group gid gname ge gv gop cs => by
      by_cases hid : gid = id <;>
        simp [updateChildNode, hid, hu, shapeOf, shapeOf_updateChildrenL id u hu cs]

theorem shapeOf_updateChildrenL (id : String) (u : LayerNode → LayerNode)
    (hu : ∀ n, shapeOf (u n) = shapeOf n) :
    (ts : List LayerNode) → shapeOfList (updateChildren id u ts) = shapeOfList ts
  | [] => rfl
  | c :: cs => by
      simp [updateChildren, shapeOfList, shapeOf_updateChildNode id u hu c,
        shapeOf_updateChildrenL id u hu cs]

end

theorem shapeOf_updateNodeInTree (id : String) (u : LayerNode → LayerNode)
    (hu : ∀ n, shapeOf (u n) = shapeOf n) (t : LayerNode) :
    shapeOf (updateNodeInTree t id u) = shapeOf t := by
  cases t with
  | info i => by_cases hid : i.id = id <;> simp [updateNodeInTree, hid, hu]
  | group gid gname ge gv gop cs =>
      by_cases hid : gid = id <;>
        simp [updateNodeInTree, hid, hu, shapeOf, shapeOf_updateChildrenL id u hu cs]

theorem shapeOf_opacitySpread (v : ℚ) (n : LayerNode) :
    shapeOf (opacitySpread v n) = shapeOf n := by
  cases n <;> simp [opacitySpread, shapeOf]

theorem lookupAssoc_setAssoc_self {α : Type} (l : List (String × α)) (k : String) (v : α) :
    lookupAssoc (setAssoc l k v) k = some v := by
  induction l with
  | nil => simp [setAssoc, lookupAssoc]
  | cons p rest ih =>
      by_cases h : p.1 = k <;> simp [setAssoc, lookupAssoc, h, ih]

theorem lookupAssoc_setAssoc_ne {α : Type} (l : List (String × α)) (k k' : String) (v : α)
    (h : k' ≠ k) : lookupAssoc (setAssoc l k v) k' = lookupAssoc l k' := by
  induction l with
  | nil => simp [setAssoc, lookupAssoc, Ne.symm h]
  | cons p rest ih =>
      by_cases hp : p.1 = k
      · simp [setAssoc, lookupAssoc, hp, h, Ne.symm h]
      · by_cases hp' : p.1 = k' <;> simp [setAssoc, lookupAssoc, hp, hp', h, ih]

theorem lookupAssoc_filter_key {α : Type} (f : String → Bool) (l : List (String × α))
    (k : String) :
    lookupAssoc (l.filter (fun p => f p.1)) k = if f k then lookupAssoc l k else none := by
  induction l with
  | nil => simp [lookupAssoc]
  | cons p rest ih =>
      by_cases hp : p.1 = k
      · subst hp
        by_cases hf : f p.1 <;> simp [lookupAssoc, hf, ih]
      · by_cases hf : f p.1 <;> simp [lookupAssoc, hf, hp, ih]

theorem addOrUpdateOne_refs_ne (st : MapLayersState) (li : LayerInfo) (id : String)
    (h : li.id ≠ id) :
    lookupAssoc (addOrUpdateOne st li).layerRefs id = lookupAssoc st.layerRefs id := by
  unfold addOrUpdateOne
  cases hl : lookupAssoc st.layerRefs li.id <;>
    simp [lookupAssoc_setAssoc_ne _ _ _ _ (Ne.symm h)]

theorem addOrUpdateOne_ops_ne (st : MapLayersState) (li : LayerInfo) (id : String)
    (h : li.id ≠ id) :
    lookupAssoc (addOrUpdateOne st li).layerOpacities id = lookupAssoc st.layerOpacities id := by
  unfold addOrUpdateOne
  cases hl : lookupAssoc st.layerRefs li.id
  · simp [lookupAssoc_setAssoc_ne _ _ _ _ (Ne.symm h)]
  · by_cases hu : (match lookupAssoc st.layerOpacities li.id with
      | none => true
      | some previousOpacity => decide (|previousOpacity - li.opacity| > (0.01 : ℚ))) = true <;>
      simp [hu, lookupAssoc_setAssoc_ne _ _ _ _ (Ne.symm h)]

theorem foldl_addOrUpdateOne_refs_ne (l : List LayerInfo) (id : String)
    (h : ∀ li ∈ l, li.id ≠ id) :
    ∀ st : MapLayersState,
      lookupAssoc (l.foldl addOrUpdateOne st).layerRefs id = lookupAssoc st.layerRefs id := by
  induction l with
  | nil => intro st; rfl
  | cons x xs ih =>
      intro st
      have hx : x.id ≠ id := h x (List.mem_cons_self x xs)
      have hxs : ∀ li ∈ xs, li.id ≠ id := fun li hm => h li (List.mem_cons_of_mem x hm)
      simp only [List.foldl_cons]
      rw [ih hxs, addOrUpdateOne_refs_ne st x id hx]

theorem foldl_addOrUpdateOne_ops_ne (l : List LayerInfo) (id : String)
    (h : ∀ li ∈ l, li.id ≠ id) :
    ∀ st : MapLayersState,
      lookupAssoc (l.foldl addOrUpdateOne st).layerOpacities id =
        lookupAssoc st.layerOpacities id := by
  induction l with
  | nil => intro st; rfl
  | cons x xs ih =>
      intro st
      have hx : x.id ≠ id := h x (List.mem_cons_self x xs)
      have hxs : ∀ li ∈ xs, li.id ≠ id := fun li hm => h li (List.mem_cons_of_mem x hm)
      simp only [List.foldl_cons]
      rw [ih hxs, addOrUpdateOne_ops_ne st x id hx]

theorem addOrUpdateOne_refs_isSome (st : MapLayersState) (li : LayerInfo) (id : String)
    (h : (lookupAssoc st.layerRefs id).isSome) :
    (lookupAssoc (addOrUpdateOne st li).layerRefs id).isSome := by
  by_cases hid : li.id = id
  · subst hid
    cases hl : lookupAssoc st.layerRefs li.id with
    | none => rw [hl] at h; simp at h
    | some existing =>
        unfold addOrUpdateOne
        rw [hl]
        simp [lookupAssoc_setAssoc_self]
  · rw [addOrUpdateOne_refs_ne st li id hid]
    exact h

theorem foldl_addOrUpdateOne_refs_isSome (l : List LayerInfo) (id : String) :
    ∀ st : MapLayersState, (lookupAssoc st.layerRefs id).isSome →
      (lookupAssoc (l.foldl addOrUpdateOne st).layerRefs id).isSome := by
  induction l with
  | nil => intro st h; exact h
  | cons x xs ih =>
      intro st h
      simp only [List.foldl_cons]
      exact ih _ (addOrUpdateOne_refs_isSome st x id h)

/-- The update branch of `addOrUpdateOne`, fully evaluated. -/
theorem addOrUpdateOne_refs_update (st : MapLayersState) (li : LayerInfo)
    (h : TileLayerHandle) (hl : lookupAssoc st.layerRefs li.id = some h) :
    lookupAssoc (addOrUpdateOne st li).layerRefs li.id =
      some { h with
               zIndex := getZIndexForGeometryType li.geometryType
               opacity :=
                 match lookupAssoc st.layerOpacities li.id with
                 | none => li.opacity
                 | some p => if |p - li.opacity| > (0.01 : ℚ) then li.opacity else h.opacity } := by
  unfold addOrUpdateOne
  rw [hl]
  cases hop : lookupAssoc st.layerOpacities li.id with
  | none => simp [lookupAssoc_setAssoc_self]
  | some p =>
      by_cases hgt : |p - li.opacity| > (0.01 : ℚ) <;>
        simp [hgt, lookupAssoc_setAssoc_self]

/-- Splitting a list of layers with `Nodup` ids around one member. -/
theorem split_of_nodup (l : List LayerInfo) (li : LayerInfo)
    (hnd : (l.map LayerInfo.id).Nodup) (hm : li ∈ l) :
    ∃ pre post, l = pre ++ li :: post ∧ (∀ x ∈ pre, x.id ≠ li.id) ∧
      (∀ x ∈ post, x.id ≠ li.id) := by
  obtain ⟨pre, post, rfl⟩ := List.append_of_mem hm
  have hnd' : ((pre.map LayerInfo.id) ++ (li.id :: post.map LayerInfo.id)).Nodup := by
    simpa using hnd
  obtain ⟨nd1, nd2, disj⟩ := List.nodup_append.mp hnd'
  refine ⟨pre, post, rfl, ?_, ?_⟩
  · intro x hx hxe
    exact disj (hxe ▸ List.mem_map_of_mem LayerInfo.id hx) (by simp)
  · intro x hx hxe
    exact (List.nodup_cons.mp nd2).1 (hxe ▸ List.mem_map_of_mem LayerInfo.id hx)

theorem lookupAssoc_filter_mem {α : Type} (ids : List String) (l : List (String × α))
    (k : String) :
    lookupAssoc (l.filter (fun p => decide (p.1 ∈ ids))) k =
      if k ∈ ids then lookupAssoc l k else none := by
  simpa using lookupAssoc_filter_key (fun x => decide (x ∈ ids)) l k

theorem removePhase_refs_lookup (ids : List String) (st : MapLayersState) (k : String) :
    lookupAssoc (removePhase ids st).layerRefs k =
      if k ∈ ids then lookupAssoc st.layerRefs k else none := by
  unfold removePhase
  exact lookupAssoc_filter_mem ids st.layerRefs k

theorem removePhase_ops_lookup (ids : List String) (st : MapLayersState) (k : String)
    (hk : k ∈ ids) :
    lookupAssoc (removePhase ids st).layerOpacities k = lookupAssoc st.layerOpacities k := by
  unfold removePhase
  have h := lookupAssoc_filter_key
    (fun x => decide (x ∈ ids) || !(decide (x ∈ st.layerRefs.map Prod.fst)))
    st.layerOpacities k
  simpa [hk] using h

theorem idsChangedB_self (l : List String) : idsChangedB l l = false := by
  have h : (fun i => l.get? i != l.get? i) = fun _ => false := by
    funext i
    simp
  simp [idsChangedB, h]

/-! ### Claim theorems -/

/-- C1 (counterexample): the claimed derived-visibility invariant — every
group's `visible` equals the OR of its descendant leaves' `visible` flags —
is already false on the initial catalog tree `layerTree` (the root, the
`supporting` group and the `present_climate` group are marked visible
while every leaf of the catalog is invisible). -/
theorem claim1_counterexample : derivedOk layerTree = false := by decide

/-- C1 (amended): the external-set sync rewrites only the leaves — every
leaf's `visible` becomes membership in the set — and leaves every group's
`visible` flag unchanged, so group flags are not re-derived as the OR of
their leaves. -/
theorem claim1_sync_updates_leaves_only (s : Finset String) (t : LayerNode) :
    leavesOf (syncVisibility s t) =
      (leavesOf t).map (fun i => { i with visible := decide (i.id ∈ s) }) ∧
    groupFlagsOf (syncVisibility s t) = groupFlagsOf t :=
  ⟨leavesOf_sync s t, groupFlagsOf_sync s t⟩

/-- C2: in single mode with exactly one selected maintenance, `toggleCell`
first emits a hide for every *other* currently visible return period of
the same maintenance and parameter, then toggles the target cell; in the
concrete scenario of the claim (maintenance `breaches`, parameter
`maxdepth`, climate `present`, `t3_25yrs_present_breaches_maxdepth`
visible), toggling return period `50` emits exactly a hide for the 25-year
layer followed by a show for the 50-year layer. -/
theorem claim2_single_mode_exclusivity :
    (∀ (selectedClimate selectedParameter maintenance returnPeriod : String)
        (visibleLayers : Finset String),
      toggleCell CompareMode.single [maintenance] selectedClimate selectedParameter
          visibleLayers returnPeriod maintenance =
        (returnPeriods.filterMap (fun rp =>
          let otherId := buildLayerId selectedClimate maintenance rp.value selectedParameter
          if otherId ≠ buildLayerId selectedClimate maintenance returnPeriod selectedParameter ∧
              otherId ∈ visibleLayers then
            some (otherId, false)
          else none)) ++
          [(buildLayerId selectedClimate maintenance returnPeriod selectedParameter,
            !(decide (buildLayerId selectedClimate maintenance returnPeriod selectedParameter
                ∈ visibleLayers)))]) ∧
    toggleCell CompareMode.single ["breaches"] "present" "maxdepth"
        {"t3_25yrs_present_breaches_maxdepth"} "50" "breaches" =
      [("t3_25yrs_present_breaches_maxdepth", false),
       ("t3_50yrs_present_breaches_maxdepth", true)] := by
  constructor
  · intro selectedClimate selectedParameter maintenance returnPeriod visibleLayers
    simp [toggleCell]
  · decide

/-- C3: running the external-set sync with a set whose sorted id list
equals the previously synced one performs no tree update — the effect
returns the stored ids and the input tree unchanged. -/
theorem claim3_sync_short_circuit (externalVisibleLayerIds : Finset String)
    (prevIds : List String) (tree : LayerNode)
    (h : externalVisibleLayerIds.sort (· ≤ ·) = prevIds) :
    visibilitySyncEffect externalVisibleLayerIds prevIds tree = (prevIds, tree) := by
  unfold visibilitySyncEffect
  rw [h]
  simp [idsChangedB_self]

theorem claim3_witness :
    ({"a"} : Finset String).sort (· ≤ ·) = ["a"] ∧
    visibilitySyncEffect {"a"} ["a"] sampleTree = (["a"], sampleTree) := by
  have hs : ({"a"} : Finset String).sort (· ≤ ·) = ["a"] := Finset.sort_singleton _ "a"
  exact ⟨hs, claim3_sync_short_circuit _ _ _ hs⟩

/-- C4: for a toggle on an id present in the tree, the handler's trace is
exactly the notifications for every affected leaf — for a group, the leaf
ids of its subtree in tree order, each paired with the new visibility; for
a leaf, just that id — followed (only afterwards) by the local tree
update. -/
theorem claim4_notify_before_update (tree : LayerNode) (id : String) (visible : Bool)
    (node : LayerNode) (h : findNode tree id = some node) :
    (handleToggleVisibility tree id visible).1 =
      (if isLayerGroup node then
        ((leavesOf node).map LayerInfo.id).map
          (fun layerId => ToggleEvent.notifyVisibility layerId visible)
      else [ToggleEvent.notifyVisibility id visible]) ++ [ToggleEvent.applyTreeUpdate] := by
  unfold handleToggleVisibility
  rw [h]
  by_cases hg : isLayerGroup node <;> simp [hg, collectLayerIds_eq_leaves]

theorem claim4_witness :
    findNode sampleTree "g" = some sampleGroup ∧
    (handleToggleVisibility sampleTree "g" true).1 =
      (if isLayerGroup sampleGroup then
        ((leavesOf sampleGroup).map LayerInfo.id).map
          (fun layerId => ToggleEvent.notifyVisibility layerId true)
      else [ToggleEvent.notifyVisibility "g" true]) ++ [ToggleEvent.applyTreeUpdate] :=
  ⟨rfl, claim4_notify_before_update sampleTree "g" true sampleGroup rfl⟩

/-- C5: the scenario matrix's `buildLayerId` and the catalog's
`buildLayerName` agree on every input, and both equal the documented
pattern with the climate, maintenance and parameter tokens lowercased and
the return-period token unchanged. -/
theorem claim5_naming_convention (climate maintenance returnPeriod parameter : String) :
    buildLayerId climate maintenance returnPeriod parameter =
      buildLayerName climate maintenance returnPeriod parameter ∧
    buildLayerId climate maintenance returnPeriod parameter =
      "t3_" ++ returnPeriod ++ "yrs_" ++ toLowerStr climate ++ "_" ++ toLowerStr maintenance
        ++ "_" ++ toLowerStr parameter :=
  ⟨rfl, rfl⟩

/-- C6: `toggleRow` computes one any-active probe over the selected
maintenances and emits the probe's negation for every cell of the row;
`toggleColumn` does the same over all return periods of one maintenance.
Concretely (spec §8): toggling row `100` with maintenances
breaches/redcapacity and nothing visible shows both layers, and toggling
the row again hides both. -/
theorem claim6_row_column_toggle :
    (∀ (selectedClimate selectedParameter : String) (selectedMaintenance : List String)
        (visibleLayers : Finset String) (returnPeriod : String),
      toggleRow selectedClimate selectedParameter selectedMaintenance visibleLayers
          returnPeriod =
        selectedMaintenance.map (fun maintenance =>
          (buildLayerId selectedClimate maintenance returnPeriod selectedParameter,
            !(selectedMaintenance.any (fun m =>
              decide (buildLayerId selectedClimate m returnPeriod selectedParameter
                ∈ visibleLayers)))))) ∧
    (∀ (selectedClimate selectedParameter : String) (visibleLayers : Finset String)
        (maintenance : String),
      toggleColumn selectedClimate selectedParameter visibleLayers maintenance =
        returnPeriods.map (fun rp =>
          (buildLayerId selectedClimate maintenance rp.value selectedParameter,
            !(returnPeriods.any (fun rp2 =>
              decide (buildLayerId selectedClimate maintenance rp2.value selectedParameter
                ∈ visibleLayers)))))) ∧
    toggleRow "present" "maxdepth" ["breaches", "redcapacity"] ∅ "100" =
      [("t3_100yrs_present_breaches_maxdepth", true),
       ("t3_100yrs_present_redcapacity_maxdepth", true)] ∧
    toggleRow "present" "maxdepth" ["breaches", "redcapacity"]
        (applyEmissions ∅ (toggleRow "present" "maxdepth" ["breaches", "redcapacity"] ∅ "100"))
        "100" =
      [("t3_100yrs_present_breaches_maxdepth", false),
       ("t3_100yrs_present_redcapacity_maxdepth", false)] := by
  refine ⟨?_, ?_, ?_, ?_⟩
  · intro selectedClimate selectedParameter selectedMaintenance visibleLayers returnPeriod
    simp [toggleRow, isCellActive]
  · intro selectedClimate selectedParameter visibleLayers maintenance
    simp [toggleColumn, isCellActive]
  · decide
  · decide

/-- C7: operations addressing an id that does not occur in the tree are
no-ops: `updateNodeInTree` (with any updater) returns the input tree
unchanged, the visibility toggle handler emits nothing and leaves the
tree unchanged, and so do the expand and opacity handlers; all are total
functions, so no error is raised. -/
theorem claim7_unknown_id_noop (tree : LayerNode) (id : String)
    (u : LayerNode → LayerNode) (visible expanded : Bool) (opacity : ℚ)
    (h : id ∉ allIds tree) :
    updateNodeInTree tree id u = tree ∧
    handleToggleVisibility tree id visible = ([], tree) ∧
    handleToggleExpand tree id expanded = tree ∧
    (handleOpacityChange tree id opacity).2 = tree := by
  refine ⟨updateNodeInTree_not_mem id u tree h, ?_, ?_, ?_⟩
  · simp [handleToggleVisibility, findNode_eq_none id tree h]
  · exact updateNodeInTree_not_mem id _ tree h
  · exact updateNodeInTree_not_mem id _ tree h

theorem claim7_witness :
    "zzz" ∉ allIds sampleTree ∧
    updateNodeInTree sampleTree "zzz" (opacitySpread 1) = sampleTree ∧
    handleToggleVisibility sampleTree "zzz" true = ([], sampleTree) := by
  have h : "zzz" ∉ allIds sampleTree := by decide
  have hc := claim7_unknown_id_noop sampleTree "zzz" (opacitySpread 1) true true 1 h
  exact ⟨h, hc.1, hc.2.1⟩

/-- C8 (counterexample): an opacity change on the id of a group node is
not a no-op or rejection — the handler writes the opacity onto the group
object (the runtime property attached by `{ ...node, opacity }`), so
after the call a group node carries an opacity value. -/
theorem claim8_counterexample :
    findNode sampleTree "g" = some sampleGroup ∧
    isLayerGroup sampleGroup = true ∧
    groupsCarryNoOpacity sampleTree = true ∧
    groupsCarryNoOpacity (handleOpacityChange sampleTree "g" (1/2 : ℚ)).2 = false :=
  ⟨rfl, rfl, by decide, by decide⟩

/-- C8 (amended): an opacity change never silently coerces a group to a
leaf — the tree's leaf/group shape is preserved exactly — and the owner
is notified with the requested `(id, opacity)` pair; but when the id
resolves to a group the handler does write the opacity onto that group
node, as the concrete run on `sampleTree` shows. -/
theorem claim8_no_coercion (tree : LayerNode) (id : String) (opacity : ℚ) :
    shapeOf ((handleOpacityChange tree id opacity).2) = shapeOf tree ∧
    (handleOpacityChange tree id opacity).1 = (id, opacity) ∧
    findNode (handleOpacityChange sampleTree "g" (1/2 : ℚ)).2 "g" =
      some (LayerNode.group "g" "Group" true false (some (1/2 : ℚ))
        [LayerNode.info sampleLeafA, LayerNode.info sampleLeafB]) :=
  ⟨shapeOf_updateNodeInTree id (opacitySpread opacity)
      (shapeOf_opacitySpread opacity) tree,
    rfl, rfl⟩

/-- C10: the application-level visibility handler is a pure set
add/remove: membership of any id other than the toggled one is unchanged
(membership of the toggled id becomes exactly the requested flag), and
applying the same change twice equals applying it once, including when
the id already had the requested state. -/
theorem claim10_set_add_remove (prev : Finset String) (id other : String) (visible : Bool) :
    (other ∈ handleLayerVisibilityChange prev id visible ↔
      (if other = id then visible = true else other ∈ prev)) ∧
    handleLayerVisibilityChange (handleLayerVisibilityChange prev id visible) id visible =
      handleLayerVisibilityChange prev id visible := by
  constructor
  · by_cases h : other = id <;> cases visible <;>
      simp [handleLayerVisibilityChange, h]
  · cases visible <;> simp [handleLayerVisibilityChange]

/-- C9: across one reconciliation pass, (a) a previously held handle
survives exactly when its id is in the new visible-leaf list, and (b) a
leaf present in both passes keeps the very same handle (same allocation
token, so it is never destroyed and recreated by unrelated additions or
removals), mutated in place: its stacking value is set unconditionally
from the geometry kind and its opacity replaced only when the previously
applied opacity is missing or differs by more than `0.01`. -/
theorem claim9_reconcile_handle_stability (vs : List LayerInfo) (st : MapLayersState)
    (hvs : (vs.map LayerInfo.id).Nodup) :
    (∀ id0 : String, (lookupAssoc st.layerRefs id0).isSome →
        ((lookupAssoc (reconcile vs st).layerRefs id0).isSome ↔ id0 ∈ vs.map LayerInfo.id)) ∧
    (∀ li ∈ vs, ∀ h : TileLayerHandle, lookupAssoc st.layerRefs li.id = some h →
        lookupAssoc (reconcile vs st).layerRefs li.id =
          some { h with
                   zIndex := getZIndexForGeometryType li.geometryType
                   opacity :=
                     match lookupAssoc st.layerOpacities li.id with
                     | none => li.opacity
                     | some p =>
                         if |p - li.opacity| > (0.01 : ℚ) then li.opacity else h.opacity }) := by
  constructor
  · intro id0 hsome
    unfold reconcile
    by_cases hin : id0 ∈ vs.map LayerInfo.id
    · simp only [hin, iff_true]
      apply foldl_addOrUpdateOne_refs_isSome
      rw [removePhase_refs_lookup]
      simpa [hin] using hsome
    · have hne : ∀ li ∈ vs, li.id ≠ id0 := by
        intro li hm he
        exact hin (he ▸ List.mem_map_of_mem LayerInfo.id hm)
      rw [foldl_addOrUpdateOne_refs_ne vs id0 hne, removePhase_refs_lookup]
      simp [hin]
  · intro li hm h hl
    obtain ⟨pre, post, hsplit, hpre, hpost⟩ := split_of_nodup vs li hvs hm
    have hmem' : li.id ∈ (pre ++ li :: post).map LayerInfo.id := by simp
    have h0refs :
        lookupAssoc (removePhase ((pre ++ li :: post).map LayerInfo.id) st).layerRefs li.id =
          some h := by
      rw [removePhase_refs_lookup]
      simp [hmem', hl]
    have h0ops :
        lookupAssoc (removePhase ((pre ++ li :: post).map LayerInfo.id) st).layerOpacities
            li.id = lookupAssoc st.layerOpacities li.id :=
      removePhase_ops_lookup _ st li.id hmem'
    have h1refs :
        lookupAssoc ((pre.foldl addOrUpdateOne
            (removePhase ((pre ++ li :: post).map LayerInfo.id) st)).layerRefs) li.id =
          some h := by
      rw [foldl_addOrUpdateOne_refs_ne pre li.id hpre, h0refs]
    have h1ops :
        lookupAssoc ((pre.foldl addOrUpdateOne
            (removePhase ((pre ++ li :: post).map LayerInfo.id) st)).layerOpacities) li.id =
          lookupAssoc st.layerOpacities li.id := by
      rw [foldl_addOrUpdateOne_ops_ne pre li.id hpre, h0ops]
    have hstep := addOrUpdateOne_refs_update
      (pre.foldl addOrUpdateOne (removePhase ((pre ++ li :: post).map LayerInfo.id) st))
      li h h1refs
    rw [h1ops] at hstep
    unfold reconcile
    rw [hsplit, List.foldl_append, List.foldl_cons,
      foldl_addOrUpdateOne_refs_ne post li.id hpost, hstep]

theorem claim9_witness :
    (([sampleVisibleX, sampleVisibleY]).map LayerInfo.id).Nodup ∧
    lookupAssoc mapState1.layerRefs sampleVisibleX.id = some sampleHandleX ∧
    lookupAssoc (reconcile [sampleVisibleX, sampleVisibleY] mapState1).layerRefs
        sampleVisibleX.id =
      some { sampleHandleX with
               zIndex := getZIndexForGeometryType sampleVisibleX.geometryType
               opacity :=
                 match lookupAssoc mapState1.layerOpacities sampleVisibleX.id with
                 | none => sampleVisibleX.opacity
                 | some p =>
                     if |p - sampleVisibleX.opacity| > (0.01 : ℚ) then sampleVisibleX.opacity
                     else sampleHandleX.opacity } := by
  have hnd : (([sampleVisibleX, sampleVisibleY]).map LayerInfo.id).Nodup := by decide
  have hl : lookupAssoc mapState1.layerRefs sampleVisibleX.id = some sampleHandleX := rfl
  have happ := (claim9_reconcile_handle_stability [sampleVisibleX, sampleVisibleY]
      mapState1 hnd).2 sampleVisibleX (by simp) sampleHandleX hl
  exact ⟨hnd, hl, happ⟩

end FloodRisk
